import Mathlib

/-!
Shallow embedding of the betting-market page `src/pages/GameDetails.tsx`
(wager validation, wager-list assembly and volume aggregation).

Modelling conventions:
* JavaScript numbers are modelled as rationals (`ℚ`); `NaN` results of the
  numeral parsers are modelled as `Option.none`.
* React state (`useState` cells touched by `placeBet`) is gathered in a
  `Session` record; a `set…` call is a functional record update.
* The store gateway (`supabase`) is external: an insert either succeeds or
  throws.  `placeBet` takes the throw outcome as a boolean parameter and
  returns the list of rows it wrote, so "no wager is written" is
  "`writes = []`".
-/

namespace CrickWin

/-- The `type` tag attached to each merged match bet ("win" or "score"). -/
inductive BetType where
  | win
  | score
deriving DecidableEq, Repr

/-- A row fetched from `win_game_bets` or `score_prediction_bets`
(fields selected in `fetchMatchBets`; fields absent from one of the two
tables, and nullable columns, are `Option`). -/
structure BetRow where
  id : String
  user_id : String
  bet_amount : Option ℚ
  status : String
  created_at : ℤ
  team : Option String
  predicted_percentage : Option ℚ
  predicted_score : Option ℤ
deriving DecidableEq, Repr

/-- A fetched row tagged with its originating collection
(spread-with-type-tag at lines 92 and 93). -/
structure MatchBet extends BetRow where
  type : BetType
deriving DecidableEq, Repr

/-- Tag a fetched row with its originating collection. -/
def tagBet (t : BetType) (b : BetRow) : MatchBet :=
  { toBetRow := b, type := t }

/-- The comparator handed to `Array.prototype.sort` at line 94, as a boolean
"`a` may come before `b`" relation: descending by `created_at`
(`(a, b) => new Date(b.created_at).getTime() - new Date(a.created_at).getTime()`). -/
def newestFirst (a b : MatchBet) : Bool :=
  decide (b.created_at ≤ a.created_at)

/-- Lines 91–94: concatenate the win rows tagged "win" with the score rows
tagged "score", then sort newest-first.  `Array.prototype.sort` is a
stable sort, modelled by `List.mergeSort`. -/
def assembleBets (winBets scoreBets : List BetRow) : List MatchBet :=
  (winBets.map (tagBet .win) ++ scoreBets.map (tagBet .score)).mergeSort newestFirst

/-- JavaScript `Number(b.bet_amount || 0)`: a missing amount contributes zero. -/
def betContribution (b : MatchBet) : ℚ :=
  b.bet_amount.getD 0

/-- The fold `list.reduce((sum, b) => sum + Number(b.bet_amount || 0), 0)`. -/
def volumeSum (l : List MatchBet) : ℚ :=
  l.foldl (fun sum b => sum + betContribution b) 0

/-- The three volume figures computed at lines 99–101. -/
structure VolumeSnapshot where
  total : ℚ
  side_a : ℚ
  side_b : ℚ
deriving DecidableEq, Repr

/-- Lines 99–101: total volume, plus per-side volume obtained by filtering on
`b.team === game?.teama` / `b.team === game?.teamb`.  The labels are
`Option String` because `game?.teama` is `undefined` when no game is loaded
and the `team` column is nullable; JavaScript `===` on these values is
equality of the options. -/
def aggregateVolumes (l : List MatchBet) (teama teamb : Option String) : VolumeSnapshot where
  total := volumeSum l
  side_a := volumeSum (l.filter (fun b => b.team == teama))
  side_b := volumeSum (l.filter (fun b => b.team == teamb))

/-- Spec wording (§8, C7): the summed amount of the wagers whose recorded
side matches neither of the two labels. -/
def neitherVolume (l : List MatchBet) (teama teamb : Option String) : ℚ :=
  volumeSum (l.filter (fun b => !(b.team == teama) && !(b.team == teamb)))

/-- Fold a run of decimal digits into a natural number. -/
def digitsVal (l : List Char) : ℕ :=
  l.foldl (fun n c => 10 * n + (c.toNat - 48)) 0

/-- Models the JavaScript builtin `parseFloat` applied to the draft amount
(line 125), restricted to plain decimal numerals (no exponent part, no
`Infinity`, no leading whitespace — the amount comes from a
`<input type="number">`): an optional sign followed by digits and an
optional fractional part; the longest such prefix is parsed and trailing
characters are ignored; `none` models `NaN`. -/
def parseFloat (s : String) : Option ℚ :=
  let cs := s.toList
  let signed := cs.head? = some '-'
  let cs := if cs.head? = some '-' ∨ cs.head? = some '+' then cs.tail else cs
  let intPart := cs.takeWhile Char.isDigit
  let rest := cs.dropWhile Char.isDigit
  let fracPart := if rest.head? = some '.' then rest.tail.takeWhile Char.isDigit else []
  if intPart.isEmpty ∧ fracPart.isEmpty then
    none
  else
    let mag : ℚ := (digitsVal intPart : ℚ) + (digitsVal fracPart : ℚ) / ((10 : ℚ) ^ fracPart.length)
    some (if signed then -mag else mag)

/-- Models the JavaScript builtin `parseInt` applied to the prediction
(line 148) with its default base-10 behaviour on ordinary strings: an
optional sign followed by decimal digits; trailing characters are ignored;
`none` models `NaN`. -/
def parseInt (s : String) : Option ℤ :=
  let cs := s.toList
  let signed := cs.head? = some '-'
  let cs := if cs.head? = some '-' ∨ cs.head? = some '+' then cs.tail else cs
  let digits := cs.takeWhile Char.isDigit
  if digits.isEmpty then
    none
  else
    some (if signed then -(digitsVal digits : ℤ) else (digitsVal digits : ℤ))

/-- The `scoreRanges` table (lines 45–48): the fixed 11-entry ordered list of
score brackets, indexed 1..11 by the prediction buttons. -/
def scoreRanges : List String :=
  ["0 - 50", "51 - 80", "81 - 100", "101 - 120", "121 - 140",
   "141 - 160", "161 - 180", "181 - 200", "201 - 220", "221 - 240", "241+"]

/-- The fields of a `games` row that `placeBet` reads.  `team` is nullable in
the row type (the source asserts `game.team!`, which only silences the type
checker and passes the stored value through). -/
structure Game where
  id : String
  status : String
  type : String
  team : Option String
  teama : Option String
  teamb : Option String
deriving DecidableEq, Repr

/-- The record inserted into `win_game_bets` (lines 140–146). -/
structure WinInsert where
  user_id : String
  game_id : String
  team : String
  predicted_percentage : ℚ
  bet_amount : ℚ
deriving DecidableEq, Repr

/-- The record inserted into `score_prediction_bets` (lines 153–159). -/
structure ScoreInsert where
  user_id : String
  game_id : String
  team : Option String
  predicted_score : ℤ
  bet_amount : ℚ
deriving DecidableEq, Repr

/-- A write performed against the store by `placeBet`. -/
inductive BetWrite where
  | winW (row : WinInsert)
  | scoreW (row : ScoreInsert)
deriving DecidableEq, Repr

/-- The React state cells read or written by `placeBet`: the authenticated
user (their id, `none` when unauthenticated), the loaded game (`none` while
loading or absent), the draft (`betAmount`, `prediction` — both raw input
strings), the user-facing `error` message, the `submitting` flag and the
cached `userBalance`. -/
structure Session where
  user : Option String
  game : Option Game
  betAmount : String
  prediction : String
  error : String
  submitting : Bool
  userBalance : ℚ
deriving DecidableEq, Repr

/-- Outcome of one `placeBet` call: the updated session state and the list of
rows written to the store (empty on any failure). -/
structure PBResult where
  session : Session
  writes : List BetWrite
deriving DecidableEq, Repr

/-- The `finally` clause (line 170): `setSubmitting(false)` runs on every
path that entered the `try`, validation rejections included. -/
def finallyClause (s : Session) : Session :=
  { s with submitting := false }

/-- The insert and its aftermath (lines 140–168): if the awaited store call
throws, the `catch` sets the generic error and the draft survives; otherwise
the row is written, the balance is re-fetched (`refreshedBalance` stands for
the value `fetchUserBalance` installs) and the draft is cleared. -/
def insertStep (s : Session) (gatewayThrows : Bool) (refreshedBalance : ℚ)
    (w : BetWrite) : PBResult :=
  if gatewayThrows then
    ⟨finallyClause { s with error := "Failed to place bet." }, []⟩
  else
    ⟨finallyClause
      { s with userBalance := refreshedBalance, betAmount := "", prediction := "" }, [w]⟩

/-- Lines 135–160: the selection check and write, reached once the liveness,
amount and balance checks have passed.  For a "win" game an empty
prediction (`!prediction`) is rejected; any other game type parses the
prediction as an integer bracket index, rejecting only on `NaN`. -/
def selectionStep (u : String) (g : Game) (a : ℚ) (s : Session)
    (gatewayThrows : Bool) (refreshedBalance : ℚ) : PBResult :=
  if g.type = "win" then
    if s.prediction = "" then
      ⟨finallyClause { s with error := "Select a team" }, []⟩
    else
      insertStep s gatewayThrows refreshedBalance
        (.winW ⟨u, g.id, s.prediction, 50, a⟩)
  else
    match parseInt s.prediction with
    | none => ⟨finallyClause { s with error := "Select a valid score range" }, []⟩
    | some p =>
        insertStep s gatewayThrows refreshedBalance
          (.scoreW ⟨u, g.id, g.team, p, a⟩)

/-- The submit handler `placeBet` (lines 112–172).  The guard `if (!user || !game) return;` runs
before anything else; then `setError('')`, `setSubmitting(true)`, the
ordered validation checks, the type-directed insert, and the `finally`
clause. -/
def placeBet (s : Session) (gatewayThrows : Bool) (refreshedBalance : ℚ) : PBResult :=
  match s.user, s.game with
  | some u, some g =>
    let s1 : Session := { s with error := "", submitting := true }
    if g.status ≠ "live" then
      ⟨finallyClause { s1 with error := "This game is not live." }, []⟩
    else
      match parseFloat s.betAmount with
      | none => ⟨finallyClause { s1 with error := "Enter a valid amount" }, []⟩
      | some a =>
        if a ≤ 0 then
          ⟨finallyClause { s1 with error := "Enter a valid amount" }, []⟩
        else if s.userBalance < a then
          ⟨finallyClause { s1 with error := "Insufficient balance" }, []⟩
        else
          selectionStep u g a s1 gatewayThrows refreshedBalance
  | _, _ => ⟨s, []⟩

/-- A submit attempt made through the form: the submit button carries
`disabled={submitting}` (line 296), so while a submission is outstanding the
browser dispatches no submit event and `placeBet` never runs. -/
def submitAttempt (s : Session) (gatewayThrows : Bool) (refreshedBalance : ℚ) : PBResult :=
  if s.submitting then ⟨s, []⟩ else placeBet s gatewayThrows refreshedBalance


/-! ### Theorems -/

/-- C1: for every game whose status is not "live", every submit attempt is
rejected with the market-closed error "This game is not live." regardless of
the draft amount or prediction, nothing is written to the store, and the
liveness check short-circuits all later checks (no assumption is made on the
amount, balance or prediction). -/
theorem placeBet_market_closed (s : Session) (gt : Bool) (rb : ℚ)
    (u : String) (g : Game) (hu : s.user = some u) (hg : s.game = some g)
    (h : g.status ≠ "live") :
    placeBet s gt rb =
      ⟨{ s with error := "This game is not live.", submitting := false }, []⟩ := by
  simp [placeBet, hu, hg, h, finallyClause]

theorem placeBet_market_closed_witness :
    placeBet ⟨some "u1", some ⟨"g1", "completed", "win", none, some "A", some "B"⟩,
        "50", "A", "", false, (100 : ℚ)⟩ false 70 =
      ⟨⟨some "u1", some ⟨"g1", "completed", "win", none, some "A", some "B"⟩,
        "50", "A", "This game is not live.", false, (100 : ℚ)⟩, []⟩ :=
  placeBet_market_closed _ false 70 "u1" _ rfl rfl (by decide)

/-- C2: on a live game, a draft whose amount string does not parse as a
number, or parses to a value that is not strictly positive, is rejected with
the invalid-amount error "Enter a valid amount" and nothing is written; no
assumption is made on the balance or the prediction, so the check precedes
the balance and selection checks. -/
theorem placeBet_invalid_amount (s : Session) (gt : Bool) (rb : ℚ)
    (u : String) (g : Game) (hu : s.user = some u) (hg : s.game = some g)
    (hlive : g.status = "live")
    (h : parseFloat s.betAmount = none ∨ ∃ a, parseFloat s.betAmount = some a ∧ a ≤ 0) :
    placeBet s gt rb =
      ⟨{ s with error := "Enter a valid amount", submitting := false }, []⟩ := by
  rcases h with h | ⟨a, ha, hle⟩
  · simp [placeBet, hu, hg, hlive, h, finallyClause]
  · simp [placeBet, hu, hg, hlive, ha, hle, finallyClause]

theorem placeBet_invalid_amount_witness :
    placeBet ⟨some "u1", some ⟨"g1", "live", "win", none, some "A", some "B"⟩,
        "abc", "A", "", false, (100 : ℚ)⟩ false 70 =
      ⟨⟨some "u1", some ⟨"g1", "live", "win", none, some "A", some "B"⟩,
        "abc", "A", "Enter a valid amount", false, (100 : ℚ)⟩, []⟩ :=
  placeBet_invalid_amount _ false 70 "u1" _ rfl rfl rfl (Or.inl (by decide))

/-- C9: the submit button is disabled while `submitting` is set, so a second
submit attempt made while one is in flight is ignored: `placeBet` is never
entered, no validation runs, nothing is written and the session state is
untouched, ruling out duplicate wagers from rapid repeated submission. -/
theorem submitAttempt_reentrancy_guard (s : Session) (gt : Bool) (rb : ℚ)
    (h : s.submitting = true) :
    submitAttempt s gt rb = ⟨s, []⟩ := by
  simp [submitAttempt, h]

theorem submitAttempt_reentrancy_guard_witness :
    submitAttempt ⟨some "u1", some ⟨"g1", "live", "win", none, some "A", some "B"⟩,
        "50", "A", "", true, (100 : ℚ)⟩ false 70 =
      ⟨⟨some "u1", some ⟨"g1", "live", "win", none, some "A", some "B"⟩,
        "50", "A", "", true, (100 : ℚ)⟩, []⟩ :=
  submitAttempt_reentrancy_guard _ false 70 rfl

/-- C10: when no user is authenticated or no game is loaded, a submit attempt
is a complete no-op: `placeBet` returns with the session unchanged — no error
message, no `submitting` toggle, no draft change — and nothing is written to
the store. -/
theorem placeBet_noop_no_user_or_game (s : Session) (gt : Bool) (rb : ℚ)
    (h : s.user = none ∨ s.game = none) :
    placeBet s gt rb = ⟨s, []⟩ := by
  rcases hu : s.user with _ | u
  · simp [placeBet, hu]
  · rcases h with h | h
    · simp [hu] at h
    · simp [placeBet, hu, h]

theorem placeBet_noop_no_user_or_game_witness :
    placeBet ⟨none, some ⟨"g1", "live", "win", none, some "A", some "B"⟩,
        "50", "A", "", false, (100 : ℚ)⟩ false 70 =
      ⟨⟨none, some ⟨"g1", "live", "win", none, some "A", some "B"⟩,
        "50", "A", "", false, (100 : ℚ)⟩, []⟩ :=
  placeBet_noop_no_user_or_game _ false 70 (Or.inl rfl)


/-- C3: on a live game with a positive parsed amount, an amount strictly
greater than the cached balance is rejected with "Insufficient balance" and
nothing is written, while an amount exactly equal to the balance passes this
check: `placeBet` proceeds to the selection stage unchanged. -/
theorem placeBet_insufficient_balance (s : Session) (gt : Bool) (rb : ℚ)
    (u : String) (g : Game) (a : ℚ) (hu : s.user = some u) (hg : s.game = some g)
    (hlive : g.status = "live") (ha : parseFloat s.betAmount = some a) (hpos : 0 < a) :
    (s.userBalance < a →
      placeBet s gt rb =
        ⟨{ s with error := "Insufficient balance", submitting := false }, []⟩)
    ∧ (a = s.userBalance →
      placeBet s gt rb =
        selectionStep u g a { s with error := "", submitting := true } gt rb) := by
  constructor
  · intro hlt
    simp [placeBet, hu, hg, hlive, ha, hpos.not_le, hlt, finallyClause]
  · intro heq
    subst heq
    simp [placeBet, hu, hg, hlive, ha, hpos.not_le, lt_irrefl]

theorem placeBet_insufficient_balance_witness :
    (placeBet ⟨some "u1", some ⟨"g1", "live", "win", none, some "A", some "B"⟩,
        "150", "A", "", false, (100 : ℚ)⟩ false 70 =
      ⟨⟨some "u1", some ⟨"g1", "live", "win", none, some "A", some "B"⟩,
        "150", "A", "Insufficient balance", false, (100 : ℚ)⟩, []⟩)
    ∧ (placeBet ⟨some "u1", some ⟨"g1", "live", "win", none, some "A", some "B"⟩,
        "100", "A", "", false, (100 : ℚ)⟩ false 70 =
      selectionStep "u1" ⟨"g1", "live", "win", none, some "A", some "B"⟩ 100
        ⟨some "u1", some ⟨"g1", "live", "win", none, some "A", some "B"⟩,
          "100", "A", "", true, (100 : ℚ)⟩ false 70) :=
  ⟨(placeBet_insufficient_balance _ false 70 "u1" _ 150 rfl rfl rfl
      (by with_unfolding_all rfl) (by decide)).1 (by decide),
   (placeBet_insufficient_balance _ false 70 "u1" _ 100 rfl rfl rfl
      (by with_unfolding_all rfl) (by decide)).2 (by decide)⟩

/-- C4 counterexample: the score-bracket table has 11 entries, yet a draft
whose prediction is the out-of-range bracket index 12 on a live score-type
game is not rejected — the wager is written to the store with
`predicted_score = 12` and no error is set. -/
theorem placeBet_score_out_of_range_cex :
    scoreRanges.length = 11
    ∧ (placeBet ⟨some "u1", some ⟨"g1", "live", "score", some "India", none, none⟩,
          "30", "12", "", false, (100 : ℚ)⟩ false 70).writes
        = [.scoreW ⟨"u1", "g1", some "India", 12, 30⟩]
    ∧ (placeBet ⟨some "u1", some ⟨"g1", "live", "score", some "India", none, none⟩,
          "30", "12", "", false, (100 : ℚ)⟩ false 70).session.error = "" := by
  refine ⟨rfl, ?_, ?_⟩ <;> with_unfolding_all rfl

/-- C4 (amended): on a live score-type game with a valid amount, the
selection check rejects with "Select a valid score range" (writing nothing)
exactly when the prediction fails to parse as an integer; a prediction that
parses to any integer bracket index — in range or not — is accepted and
written to the store with that index. -/
theorem placeBet_score_selection (s : Session) (gt : Bool) (rb : ℚ)
    (u : String) (g : Game) (a : ℚ) (hu : s.user = some u) (hg : s.game = some g)
    (hlive : g.status = "live") (htype : g.type = "score")
    (ha : parseFloat s.betAmount = some a) (hpos : 0 < a)
    (hbal : ¬ s.userBalance < a) :
    (parseInt s.prediction = none →
      placeBet s gt rb =
        ⟨{ s with error := "Select a valid score range", submitting := false }, []⟩)
    ∧ (∀ p : ℤ, parseInt s.prediction = some p →
      placeBet s false rb =
        ⟨{ s with
            userBalance := rb, betAmount := "", prediction := "",
            error := "", submitting := false },
          [.scoreW ⟨u, g.id, g.team, p, a⟩]⟩) := by
  constructor
  · intro h
    simp [placeBet, selectionStep, finallyClause, hu, hg, hlive, htype, ha,
      hpos.not_le, hbal, h]
  · intro p h
    simp [placeBet, selectionStep, insertStep, finallyClause, hu, hg, hlive,
      htype, ha, hpos.not_le, hbal, h]

theorem placeBet_score_selection_witness :
    (placeBet ⟨some "u1", some ⟨"g1", "live", "score", some "India", none, none⟩,
        "30", "many", "", false, (100 : ℚ)⟩ false 70 =
      ⟨⟨some "u1", some ⟨"g1", "live", "score", some "India", none, none⟩,
        "30", "many", "Select a valid score range", false, (100 : ℚ)⟩, []⟩)
    ∧ (placeBet ⟨some "u1", some ⟨"g1", "live", "score", some "India", none, none⟩,
        "30", "7", "", false, (100 : ℚ)⟩ false 70 =
      ⟨⟨some "u1", some ⟨"g1", "live", "score", some "India", none, none⟩,
        "", "", "", false, (70 : ℚ)⟩,
        [.scoreW ⟨"u1", "g1", some "India", 7, 30⟩]⟩) :=
  ⟨(placeBet_score_selection _ false 70 "u1" _ 30 rfl rfl rfl rfl
      (by with_unfolding_all rfl) (by decide) (by decide)).1 (by decide),
   (placeBet_score_selection _ false 70 "u1" _ 30 rfl rfl rfl rfl
      (by with_unfolding_all rfl) (by decide) (by decide)).2 7 (by decide)⟩

/-- C5: with a user and game present, every `placeBet` run either succeeds —
no error message, a row written, the draft cleared — or fails — a non-empty
error message, no row written, and the draft (amount and prediction)
preserved exactly; moreover whenever the submit would reach the store, a
gateway failure during the insert surfaces as the generic
"Failed to place bet." message. -/
theorem placeBet_failure_preserves_draft (s : Session) (gt : Bool) (rb : ℚ)
    (u : String) (g : Game) (hu : s.user = some u) (hg : s.game = some g) :
    ((placeBet s gt rb).session.error = "" ∧ (placeBet s gt rb).writes ≠ []
        ∧ (placeBet s gt rb).session.betAmount = ""
        ∧ (placeBet s gt rb).session.prediction = ""
      ∨ (placeBet s gt rb).session.error ≠ "" ∧ (placeBet s gt rb).writes = []
        ∧ (placeBet s gt rb).session.betAmount = s.betAmount
        ∧ (placeBet s gt rb).session.prediction = s.prediction)
    ∧ ((placeBet s false rb).writes ≠ [] →
        (placeBet s true rb).session.error = "Failed to place bet.") := by
  have main : ∀ gt' : Bool,
      (placeBet s gt' rb).session.error = "" ∧ (placeBet s gt' rb).writes ≠ []
        ∧ (placeBet s gt' rb).session.betAmount = ""
        ∧ (placeBet s gt' rb).session.prediction = ""
        ∧ gt' = false
      ∨ (placeBet s gt' rb).session.error ≠ "" ∧ (placeBet s gt' rb).writes = []
        ∧ (placeBet s gt' rb).session.betAmount = s.betAmount
        ∧ (placeBet s gt' rb).session.prediction = s.prediction
        ∧ ((placeBet s gt' rb).session.error = "Failed to place bet." ∨ gt' = false ∨
            (placeBet s false rb).writes = []) := by
    intro gt'
    by_cases hst : g.status = "live"
    · rcases hpf : parseFloat s.betAmount with _ | a
      · right
        simp [placeBet, hu, hg, hst, hpf, finallyClause]
      · by_cases hle : a ≤ 0
        · right
          simp [placeBet, hu, hg, hst, hpf, hle, finallyClause]
        · by_cases hbal : s.userBalance < a
          · right
            simp [placeBet, hu, hg, hst, hpf, hle, hbal, finallyClause]
          · by_cases hw : g.type = "win"
            · by_cases hpred : s.prediction = ""
              · right
                simp [placeBet, selectionStep, hu, hg, hst, hpf, hle, hbal, hw,
                  hpred, finallyClause]
              · cases gt'
                · left
                  simp [placeBet, selectionStep, insertStep, hu, hg, hst, hpf,
                    hle, hbal, hw, hpred, finallyClause]
                · right
                  simp [placeBet, selectionStep, insertStep, hu, hg, hst, hpf,
                    hle, hbal, hw, hpred, finallyClause]
            · rcases hint : parseInt s.prediction with _ | p
              · right
                simp [placeBet, selectionStep, hu, hg, hst, hpf, hle, hbal, hw,
                  hint, finallyClause]
              · cases gt'
                · left
                  simp [placeBet, selectionStep, insertStep, hu, hg, hst, hpf,
                    hle, hbal, hw, hint, finallyClause]
                · right
                  simp [placeBet, selectionStep, insertStep, hu, hg, hst, hpf,
                    hle, hbal, hw, hint, finallyClause]
    · right
      simp [placeBet, hu, hg, hst, finallyClause]
  constructor
  · rcases main gt with h | h
    · exact Or.inl ⟨h.1, h.2.1, h.2.2.1, h.2.2.2.1⟩
    · exact Or.inr ⟨h.1, h.2.1, h.2.2.1, h.2.2.2.1⟩
  · intro hne
    rcases main true with h | h
    · simp at h
    · rcases h.2.2.2.2 with h' | h' | h'
      · exact h'
      · simp at h'
      · exact absurd h' hne

theorem placeBet_failure_preserves_draft_witness :
    ((placeBet ⟨some "u1", some ⟨"g1", "live", "win", none, some "A", some "B"⟩,
        "", "A", "", false, (100 : ℚ)⟩ false 70).session.error = ""
        ∧ (placeBet ⟨some "u1", some ⟨"g1", "live", "win", none, some "A", some "B"⟩,
            "", "A", "", false, (100 : ℚ)⟩ false 70).writes ≠ []
        ∧ (placeBet ⟨some "u1", some ⟨"g1", "live", "win", none, some "A", some "B"⟩,
            "", "A", "", false, (100 : ℚ)⟩ false 70).session.betAmount = ""
        ∧ (placeBet ⟨some "u1", some ⟨"g1", "live", "win", none, some "A", some "B"⟩,
            "", "A", "", false, (100 : ℚ)⟩ false 70).session.prediction = ""
      ∨ (placeBet ⟨some "u1", some ⟨"g1", "live", "win", none, some "A", some "B"⟩,
            "", "A", "", false, (100 : ℚ)⟩ false 70).session.error ≠ ""
        ∧ (placeBet ⟨some "u1", some ⟨"g1", "live", "win", none, some "A", some "B"⟩,
            "", "A", "", false, (100 : ℚ)⟩ false 70).writes = []
        ∧ (placeBet ⟨some "u1", some ⟨"g1", "live", "win", none, some "A", some "B"⟩,
            "", "A", "", false, (100 : ℚ)⟩ false 70).session.betAmount = ""
        ∧ (placeBet ⟨some "u1", some ⟨"g1", "live", "win", none, some "A", some "B"⟩,
            "", "A", "", false, (100 : ℚ)⟩ false 70).session.prediction = "A")
    ∧ ((placeBet ⟨some "u1", some ⟨"g1", "live", "win", none, some "A", some "B"⟩,
          "", "A", "", false, (100 : ℚ)⟩ false 70).writes ≠ [] →
        (placeBet ⟨some "u1", some ⟨"g1", "live", "win", none, some "A", some "B"⟩,
          "", "A", "", false, (100 : ℚ)⟩ true 70).session.error =
            "Failed to place bet.") :=
  placeBet_failure_preserves_draft _ false 70 "u1" _ rfl rfl

/-- The reduce-from-zero fold over any starting accumulator, as a map-sum. -/
theorem foldl_add_init (l : List MatchBet) (init : ℚ) :
    l.foldl (fun sum b => sum + betContribution b) init
      = init + (l.map betContribution).sum := by
  induction l generalizing init with
  | nil => simp
  | cons b t ih => simp [ih, add_assoc]

/-- The volume fold is the sum of the per-bet contributions. -/
theorem volumeSum_eq_sum (l : List MatchBet) :
    volumeSum l = (l.map betContribution).sum := by
  simpa using foldl_add_init l 0

/-- Unfolding the volume fold over a cons cell. -/
theorem volumeSum_cons (b : MatchBet) (l : List MatchBet) :
    volumeSum (b :: l) = betContribution b + volumeSum l := by
  simp [volumeSum_eq_sum]

/-- For two distinct side labels, the matching-side filters and the
neither-side filter partition the total volume. -/
theorem volumeSum_partition (l : List MatchBet) (la lb : Option String)
    (hne : la ≠ lb) :
    volumeSum l
      = volumeSum (l.filter (fun b => b.team == la))
        + volumeSum (l.filter (fun b => b.team == lb))
        + volumeSum (l.filter (fun b => !(b.team == la) && !(b.team == lb))) := by
  induction l with
  | nil => simp [volumeSum]
  | cons b t ih =>
    by_cases h1 : b.team = la
    · have h2 : ¬ b.team = lb := fun h => hne (h1.symm.trans h)
      simp [List.filter_cons, volumeSum_cons, h1, h2, hne, ih]
      ring
    · by_cases h2 : b.team = lb
      · have hba : lb ≠ la := fun h => hne h.symm
        simp [List.filter_cons, volumeSum_cons, h1, h2, hba, ih]
        ring
      · simp [List.filter_cons, volumeSum_cons, h1, h2, ih]
        ring

/-- C7 counterexample: with the two side labels equal (label "X" on both
sides), a single wager on side "X" of amount 5 is counted in both per-side
volumes: the total is 5 while side_a + side_b + neither is 10, so neither
the additivity equation nor total ≥ side_a + side_b holds for every pair of
labels. -/
theorem aggregateVolumes_additivity_cex :
    ((aggregateVolumes
        [⟨⟨"b1", "u1", some 5, "pending", 0, some "X", none, none⟩, .win⟩]
        (some "X") (some "X")).total
      ≠ (aggregateVolumes
          [⟨⟨"b1", "u1", some 5, "pending", 0, some "X", none, none⟩, .win⟩]
          (some "X") (some "X")).side_a
        + (aggregateVolumes
            [⟨⟨"b1", "u1", some 5, "pending", 0, some "X", none, none⟩, .win⟩]
            (some "X") (some "X")).side_b
        + neitherVolume
            [⟨⟨"b1", "u1", some 5, "pending", 0, some "X", none, none⟩, .win⟩]
            (some "X") (some "X"))
    ∧ ¬ ((aggregateVolumes
          [⟨⟨"b1", "u1", some 5, "pending", 0, some "X", none, none⟩, .win⟩]
          (some "X") (some "X")).side_a
        + (aggregateVolumes
            [⟨⟨"b1", "u1", some 5, "pending", 0, some "X", none, none⟩, .win⟩]
            (some "X") (some "X")).side_b
        ≤ (aggregateVolumes
            [⟨⟨"b1", "u1", some 5, "pending", 0, some "X", none, none⟩, .win⟩]
            (some "X") (some "X")).total) := by
  constructor <;> with_unfolding_all decide

/-- C7 (amended): for every wager list and every pair of distinct side
labels, the aggregated total volume equals the side-A volume plus the side-B
volume plus the summed amounts of the wagers matching neither label; and
since wager amounts are nonnegative (missing ones counting as zero), total ≥
side_a + side_b follows. -/
theorem aggregateVolumes_additive (l : List MatchBet) (la lb : Option String)
    (hne : la ≠ lb) (hnn : ∀ b ∈ l, 0 ≤ betContribution b) :
    (aggregateVolumes l la lb).total
      = (aggregateVolumes l la lb).side_a + (aggregateVolumes l la lb).side_b
        + neitherVolume l la lb
    ∧ (aggregateVolumes l la lb).side_a + (aggregateVolumes l la lb).side_b
      ≤ (aggregateVolumes l la lb).total := by
  have he := volumeSum_partition l la lb hne
  have hn : 0 ≤ volumeSum (l.filter (fun b => !(b.team == la) && !(b.team == lb))) := by
    rw [volumeSum_eq_sum]
    refine List.sum_nonneg ?_
    intro x hx
    rcases List.mem_map.1 hx with ⟨b, hb, rfl⟩
    exact hnn b (List.mem_of_mem_filter hb)
  constructor
  · simpa [aggregateVolumes, neitherVolume] using he
  · simp only [aggregateVolumes]
    rw [he]
    linarith

theorem aggregateVolumes_additive_witness :
    ((aggregateVolumes
        [⟨⟨"b1", "u1", some 5, "pending", 0, some "X", none, none⟩, .win⟩]
        (some "X") (some "Y")).total
      = (aggregateVolumes
          [⟨⟨"b1", "u1", some 5, "pending", 0, some "X", none, none⟩, .win⟩]
          (some "X") (some "Y")).side_a
        + (aggregateVolumes
            [⟨⟨"b1", "u1", some 5, "pending", 0, some "X", none, none⟩, .win⟩]
            (some "X") (some "Y")).side_b
        + neitherVolume
            [⟨⟨"b1", "u1", some 5, "pending", 0, some "X", none, none⟩, .win⟩]
            (some "X") (some "Y"))
    ∧ ((aggregateVolumes
          [⟨⟨"b1", "u1", some 5, "pending", 0, some "X", none, none⟩, .win⟩]
          (some "X") (some "Y")).side_a
        + (aggregateVolumes
            [⟨⟨"b1", "u1", some 5, "pending", 0, some "X", none, none⟩, .win⟩]
            (some "X") (some "Y")).side_b
        ≤ (aggregateVolumes
            [⟨⟨"b1", "u1", some 5, "pending", 0, some "X", none, none⟩, .win⟩]
            (some "X") (some "Y")).total) :=
  aggregateVolumes_additive _ (some "X") (some "Y") (by decide)
    (by intro b hb; simp at hb; subst hb; decide)

/-- C8: the volume aggregation is a pure function of the wager list — in
this embedding it is a mathematical function, so the same list always yields
the same snapshot and the input list is never mutated; the empty list yields
total 0, side-A 0 and side-B 0; and a wager whose amount is missing
contributes zero to every figure rather than failing. -/
theorem aggregateVolumes_pure (l : List MatchBet) (la lb : Option String)
    (b : MatchBet) :
    aggregateVolumes l la lb = aggregateVolumes l la lb
    ∧ aggregateVolumes [] la lb = ⟨0, 0, 0⟩
    ∧ (b.bet_amount = none → aggregateVolumes (b :: l) la lb = aggregateVolumes l la lb) := by
  refine ⟨rfl, rfl, fun h => ?_⟩
  have hc : betContribution b = 0 := by simp [betContribution, h]
  have key : ∀ p : MatchBet → Bool,
      volumeSum (List.filter p (b :: l)) = volumeSum (List.filter p l) := by
    intro p
    by_cases hp : p b <;> simp [List.filter_cons, hp, volumeSum_cons, hc]
  have keyall : volumeSum (b :: l) = volumeSum l := by simp [volumeSum_cons, hc]
  simp [aggregateVolumes, key, keyall]

theorem aggregateVolumes_pure_witness :
    aggregateVolumes
        [⟨⟨"b2", "u2", none, "pending", 1, some "A", none, none⟩, .win⟩]
        (some "A") (some "B")
      = aggregateVolumes [] (some "A") (some "B") :=
  (aggregateVolumes_pure [] (some "A") (some "B")
    ⟨⟨"b2", "u2", none, "pending", 1, some "A", none, none⟩, .win⟩).2.2 rfl

/-- C6: for any win-type and score-type row lists whose tagged union has
pairwise distinct creation timestamps, the assembled match-bet sequence is a
permutation of the two tagged input lists — every element of both inputs
appears exactly once, carrying its originating type tag — and is strictly
descending by creation timestamp (most recent first). -/
theorem assembleBets_perm_sorted (ws ss : List BetRow)
    (hdist : (ws.map (tagBet .win) ++ ss.map (tagBet .score)).Pairwise
      (fun a b => a.created_at ≠ b.created_at)) :
    (assembleBets ws ss).Perm (ws.map (tagBet .win) ++ ss.map (tagBet .score))
    ∧ (assembleBets ws ss).Pairwise (fun a b => b.created_at < a.created_at) := by
  have hperm :=
    List.mergeSort_perm (ws.map (tagBet .win) ++ ss.map (tagBet .score)) newestFirst
  refine ⟨hperm, ?_⟩
  have hs : (assembleBets ws ss).Pairwise (fun a b => newestFirst a b = true) :=
    List.sorted_mergeSort
      (fun a b c h1 h2 => by
        simp only [newestFirst, decide_eq_true_eq] at h1 h2 ⊢
        exact le_trans h2 h1)
      (fun a b => by
        simp only [newestFirst, Bool.or_eq_true, decide_eq_true_eq]
        exact Int.le_total b.created_at a.created_at)
      (ws.map (tagBet .win) ++ ss.map (tagBet .score))
  have hd : (assembleBets ws ss).Pairwise (fun a b => a.created_at ≠ b.created_at) :=
    (hperm.pairwise_iff fun h => h.symm).mpr hdist
  refine (hs.and hd).imp ?_
  intro a b h
  have h1 : b.created_at ≤ a.created_at := by
    have := h.1
    simpa [newestFirst] using this
  exact lt_of_le_of_ne h1 h.2.symm

theorem assembleBets_perm_sorted_witness :
    (assembleBets
        [⟨"w1", "u1", some 10, "pending", 5, some "A", some 50, none⟩]
        [⟨"s1", "u2", some 20, "pending", 9, some "T", none, some 3⟩,
         ⟨"s2", "u3", some 30, "completed", 2, some "T", none, some 7⟩]).Perm
      ([⟨"w1", "u1", some 10, "pending", 5, some "A", some 50, none⟩].map (tagBet .win)
        ++ [⟨"s1", "u2", some 20, "pending", 9, some "T", none, some 3⟩,
            ⟨"s2", "u3", some 30, "completed", 2, some "T", none, some 7⟩].map
              (tagBet .score))
    ∧ (assembleBets
        [⟨"w1", "u1", some 10, "pending", 5, some "A", some 50, none⟩]
        [⟨"s1", "u2", some 20, "pending", 9, some "T", none, some 3⟩,
         ⟨"s2", "u3", some 30, "completed", 2, some "T", none, some 7⟩]).Pairwise
        (fun a b => b.created_at < a.created_at) :=
  assembleBets_perm_sorted _ _ (by decide)

end CrickWin
